import Mathlib

/- Shallow embedding of src/wgan.py, a weight-clipping WGAN trainer.
   Scalars are rationals, tensors are lists of rationals, a dataset is a
   list of rows indexed by position (a pandas frame with the default
   range index).  The numpy seeded permutation draw and the Keras
   optimizer/restorer are external collaborators and enter as explicit
   parameters; everything the repository's own code does is embedded
   line by line. -/

/-- ClipConstraint (src/wgan.py lines 26-37): stores the clip magnitude
fixed at construction. -/
structure ClipConstraint where
  clip_value : ℚ
deriving DecidableEq

/-- ClipConstraint.__call__: elementwise clamp of a weight tensor into
[-clip_value, clip_value], mirroring backend.clip(weights, -c, c). -/
def ClipConstraint.call (c : ClipConstraint) (weights : List ℚ) : List ℚ :=
  weights.map (fun w => min c.clip_value (max (-c.clip_value) w))

/-- ClipConstraint.get_config: the serializable configuration. -/
def ClipConstraint.get_config (c : ClipConstraint) : List (String × ℚ) :=
  [("clip_value", c.clip_value)]

/-- Keras layer declarations used by the two model builders: an Input
layer, a Dense layer (units, optional activation, optional kernel and
bias constraints) and a Dropout layer.  The builders only declare the
layer stack; executing it is the external engine's job. -/
inductive LayerSpec where
  | input (shape : List ℚ) (batch_size : ℚ)
  | dense (units : ℚ) (activation : Option String)
      (kernel_constraint : Option ClipConstraint)
      (bias_constraint : Option ClipConstraint)
  | dropout (rate : ℚ)
deriving DecidableEq

/-- Generator.build_model (src/wgan.py lines 155-161): three ReLU hidden
Dense layers of widths dim, 2*dim, 4*dim and a final linear Dense to
data_dim; no constraints anywhere; no dimension validation. -/
def Generator.build_model (batch_size : ℚ) (input_shape : List ℚ)
    (dim data_dim : ℚ) : List LayerSpec :=
  [LayerSpec.input input_shape batch_size,
   LayerSpec.dense dim (some "relu") none none,
   LayerSpec.dense (dim * 2) (some "relu") none none,
   LayerSpec.dense (dim * 4) (some "relu") none none,
   LayerSpec.dense data_dim none none none]

/-- Critic.build_model (src/wgan.py lines 167-177): const =
ClipConstraint(0.01); three ReLU hidden Dense layers of widths 4*dim,
2*dim, dim, each with kernel_constraint = const and no bias constraint,
dropout 0.1 after the first two, and a final Dense(1) with NO constraint
and no activation. -/
def Critic.build_model (batch_size : ℚ) (input_shape : List ℚ)
    (dim : ℚ) : List LayerSpec :=
  [LayerSpec.input input_shape batch_size,
   LayerSpec.dense (dim * 4) (some "relu") (some (ClipConstraint.mk (1/100))) none,
   LayerSpec.dropout (1/10),
   LayerSpec.dense (dim * 2) (some "relu") (some (ClipConstraint.mk (1/100))) none,
   LayerSpec.dropout (1/10),
   LayerSpec.dense dim (some "relu") (some (ClipConstraint.mk (1/100))) none,
   LayerSpec.dense 1 none none none]

/-- Constraint slots (kernel_constraint, bias_constraint) of each Dense
layer of a network, in network order. -/
def denseConstraints (net : List LayerSpec) :
    List (Option ClipConstraint × Option ClipConstraint) :=
  net.filterMap (fun l =>
    match l with
    | LayerSpec.dense _ _ kc bc => some (kc, bc)
    | _ => none)

/-- Weight state of one Dense layer: a kernel tensor and a bias tensor,
flattened to element lists. -/
structure DenseWeights where
  kernel : List ℚ
  bias : List ℚ
deriving DecidableEq

/-- Keras constraint hook semantics: after an optimizer step the
constraint, when present, maps the tensor; absent constraints leave the
tensor as the optimizer wrote it. -/
def applyConstraint (oc : Option ClipConstraint) (w : List ℚ) : List ℚ :=
  match oc with
  | none => w
  | some c => c.call w

/-- One parameter update of a Dense layer: the optimizer proposes
arbitrary new weights, then each tensor's constraint hook fires. -/
def Dense.applyUpdate (kc bc : Option ClipConstraint)
    (proposed : DenseWeights) : DenseWeights :=
  DenseWeights.mk (applyConstraint kc proposed.kernel)
    (applyConstraint bc proposed.bias)

/-- K.mean of a tensor (sum divided by element count; 0 on the empty
tensor since 0/0 = 0 in ℚ). -/
def K.mean (l : List ℚ) : ℚ := l.sum / (l.length : ℚ)

/-- WGAN.wasserstein_loss (src/wgan.py lines 49-50):
K.mean(y_true * y_pred) with elementwise product. -/
def WGAN.wasserstein_loss (y_true y_pred : List ℚ) : ℚ :=
  K.mean (List.zipWith (fun a b => a * b) y_true y_pred)

/-- Python list slice l[start:stop] for 0 ≤ start ≤ stop: drop start
elements, then take stop - start, truncating at the end of the list. -/
def listSlice {α : Type} (l : List α) (start stop : ℕ) : List α :=
  (l.drop start).take (stop - start)

/-- IsPermOf l n: l is a permutation of the index set range n.  This is
the contract of np.random.choice(indices, replace=False, size=n) on a
dataset whose index is range n. -/
def IsPermOf (l : List ℕ) (n : ℕ) : Prop := List.Perm l (List.range n)

/-- Index window selected by get_data_batch before the row lookup:
start_i = (batch_size * seed) mod n, stop_i = start_i + batch_size,
shuffle_seed = (batch_size * seed) div n, and the slice
[start_i : stop_i] of the duplicated shuffled index list.  perm models
the seeded numpy draw: perm s n is the permutation of range n obtained
right after np.random.seed(s). -/
def WGAN.batch_indices (perm : ℕ → ℕ → List ℕ) (n batch_size seed : ℕ) :
    List ℕ :=
  let start_i := (batch_size * seed) % n
  let stop_i := start_i + batch_size
  let shuffle_seed := (batch_size * seed) / n
  let train_ix := perm shuffle_seed n ++ perm shuffle_seed n
  listSlice train_ix start_i stop_i

/-- Regroup a flat list into b rows of k entries each (truncating or
padding short when the list is not long enough). -/
def chunkInto : ℕ → ℕ → List ℚ → List (List ℚ)
  | 0, _, _ => []
  | b + 1, k, l => l.take k :: chunkInto b k (l.drop k)

/-- np.reshape(x, (b, -1)) on a list of rows: flatten, then infer the
second dimension; a ValueError (none) when b does not divide the element
count or b = 0. -/
def np_reshape_rows (x : List (List ℚ)) (b : ℕ) : Option (List (List ℚ)) :=
  if 0 < b ∧ x.flatten.length % b = 0 then
    some (chunkInto b (x.flatten.length / b) x.flatten)
  else none

/-- WGAN.get_data_batch (src/wgan.py lines 82-93): re-seed numpy with
shuffle_seed, draw a full permutation of the index set, duplicate it,
slice [start_i : stop_i], look the rows up and reshape to
(batch_size, -1).  The seed argument defaults to 0 in the source.  An
empty dataset is a ZeroDivisionError (none). -/
def WGAN.get_data_batch (perm : ℕ → ℕ → List ℕ) (train : List (List ℚ))
    (batch_size : ℕ) (seed : ℕ) : Option (List (List ℚ)) :=
  if train.length = 0 then none
  else
    let x := (WGAN.batch_indices perm train.length batch_size seed).map
      (fun i => train.getD i [])
    np_reshape_rows x batch_size

/-- External pseudo-random generator interface: np.random.seed replaces
the process-wide state with a state determined by the seed alone, and a
permutation draw reads and advances the state. -/
structure NpRandom (σ : Type) where
  reseed : ℕ → σ
  drawPerm : σ → ℕ → List ℕ × σ

/-- WGAN.get_data_batch threaded through the process-wide numpy random
state: the call re-seeds with shuffle_seed before drawing, so the
incoming state is discarded.  Returns the batch and the outgoing
state. -/
def WGAN.get_data_batch_rng {σ : Type} (rng : NpRandom σ) (st : σ)
    (train : List (List ℚ)) (batch_size : ℕ) (seed : ℕ) :
    Option (List (List ℚ)) × σ :=
  if train.length = 0 then (none, st)
  else
    let n := train.length
    let start_i := (batch_size * seed) % n
    let stop_i := start_i + batch_size
    let shuffle_seed := (batch_size * seed) / n
    let pm := rng.drawPerm (rng.reseed shuffle_seed) n
    let train_ix := pm.1 ++ pm.1
    let x := (listSlice train_ix start_i stop_i).map (fun i => train.getD i [])
    (np_reshape_rows x batch_size, pm.2)

/-- Observable events of one WGAN.train run, in program order. -/
inductive TrainEvent where
  | sampleBatch (seed : ℕ)
  | genBatch
  | criticTrainReal
  | criticTrainFake
  | generatorTrain
  | progressReport (epoch : ℕ)
  | mkdirCache
  | saveWeights (filename : String)
deriving DecidableEq

/-- Uncaught Python exceptions the training loop itself can raise. -/
inductive TrainError where
  | unboundLocal (name : String)
  | zeroDivision
deriving DecidableEq

/-- Checkpoint filename built at src/wgan.py line 135:
'./cache/' + cache_pfx + '_..._model_weights_step_....h5' with role and
epoch substituted in order by str.format. -/
def checkpoint_name (cache_pfx role : String) (epoch : ℕ) : String :=
  "./cache/" ++ cache_pfx ++ "_" ++ role ++ "_model_weights_step_" ++
    toString epoch ++ ".h5"

/-- Events of the inner critic loop of one epoch (src/wgan.py lines
104-117): range(n_critic) iterations, each sampling a real batch with
the DEFAULT seed 0 (the call site passes no seed), generating a fake
batch and training the critic on the real then the fake batch. -/
def criticPhaseEvents (n_critic : ℤ) : List TrainEvent :=
  (List.range n_critic.toNat).flatMap (fun _ =>
    [TrainEvent.sampleBatch 0, TrainEvent.genBatch,
     TrainEvent.criticTrainReal, TrainEvent.criticTrainFake])

/-- Epoch recursion of WGAN.train: epoch is the current epoch number,
fuel the number of epochs still to run, cacheExists whether ./cache
exists, dLossDefined whether the local d_loss has ever been assigned.
The progress report (line 127) reads d_loss and raises an unbound-local
error when no critic iteration ever ran; the checkpoint test
epoch % sample_interval (line 130) raises ZeroDivisionError when
sample_interval = 0. -/
def WGAN.train_go (n_critic : ℤ) (cache_pfx : String)
    (sample_interval : ℕ) :
    ℕ → ℕ → Bool → Bool → Except TrainError (List TrainEvent)
  | _, 0, _, _ => Except.ok []
  | epoch, fuel + 1, cacheExists, dLossDefined =>
    let dld := dLossDefined || decide (1 ≤ n_critic)
    if dld = false then Except.error (TrainError.unboundLocal "d_loss")
    else if sample_interval = 0 then Except.error TrainError.zeroDivision
    else
      let ckpt :=
        if epoch % sample_interval = 0 then
          (if cacheExists then [] else [TrainEvent.mkdirCache]) ++
          [TrainEvent.saveWeights (checkpoint_name cache_pfx "generator" epoch),
           TrainEvent.saveWeights (checkpoint_name cache_pfx "critic" epoch)]
        else []
      match WGAN.train_go n_critic cache_pfx sample_interval (epoch + 1) fuel
          (cacheExists || decide (epoch % sample_interval = 0)) dld with
      | Except.error e => Except.error e
      | Except.ok rest =>
        Except.ok (criticPhaseEvents n_critic ++
          [TrainEvent.generatorTrain, TrainEvent.progressReport epoch] ++
          ckpt ++ rest)

/-- Error-free trace of WGAN.train from a given epoch: the same
recursion as WGAN.train_go with the error branches removed (they never
fire once a critic iteration runs each epoch and sample_interval is
positive). -/
def WGAN.train_events (n_critic : ℤ) (cache_pfx : String)
    (sample_interval : ℕ) : ℕ → ℕ → Bool → List TrainEvent
  | _, 0, _ => []
  | epoch, fuel + 1, cacheExists =>
    criticPhaseEvents n_critic ++
    [TrainEvent.generatorTrain, TrainEvent.progressReport epoch] ++
    (if epoch % sample_interval = 0 then
       (if cacheExists then [] else [TrainEvent.mkdirCache]) ++
       [TrainEvent.saveWeights (checkpoint_name cache_pfx "generator" epoch),
        TrainEvent.saveWeights (checkpoint_name cache_pfx "critic" epoch)]
     else []) ++
    WGAN.train_events n_critic cache_pfx sample_interval (epoch + 1) fuel
      (cacheExists || decide (epoch % sample_interval = 0))

/-- WGAN.train (src/wgan.py lines 95-141): epochs sweeps, each running
n_critic critic iterations, one generator step, one progress report and
a checkpoint pair when epoch % sample_interval == 0.  cacheExists0 says
whether ./cache exists when train starts. -/
def WGAN.train (n_critic : ℤ) (cache_pfx : String)
    (epochs sample_interval : ℕ) (cacheExists0 : Bool) :
    Except TrainError (List TrainEvent) :=
  WGAN.train_go n_critic cache_pfx sample_interval 0 epochs cacheExists0 false

/-- Filename of a checkpoint-write event, none for any other event. -/
def TrainEvent.saveName? : TrainEvent → Option String
  | TrainEvent.saveWeights fn => some fn
  | _ => none

/-- Configuration produced by WGAN.__init__ (src/wgan.py lines 41-47):
the five unpacked parameters and the two networks define_gan builds. -/
structure WGANNets where
  n_critic : ℤ
  batch_size : ℚ
  lr : ℚ
  noise_dim : ℚ
  data_dim : ℚ
  layers_dim : ℚ
  generator : List LayerSpec
  critic : List LayerSpec
deriving DecidableEq

/-- WGAN.__init__ followed by define_gan (src/wgan.py lines 41-57):
unpacks the 5-element parameter list (a ValueError when the length is
not 5) and builds both networks.  The repository code performs NO
dimension validation. -/
def WGAN.init (model_parameters : List ℚ) (n_critic : ℤ) :
    Except String WGANNets :=
  match model_parameters with
  | [batch_size, lr, noise_dim, data_dim, layers_dim] =>
    Except.ok (WGANNets.mk n_critic batch_size lr noise_dim data_dim layers_dim
      (Generator.build_model batch_size [noise_dim] layers_dim data_dim)
      (Critic.build_model batch_size [data_dim] layers_dim))
  | _ => Except.error "ValueError: not enough values to unpack"

/-- Bare Generator object Generator(batch_size) before build_model. -/
structure GeneratorShell where
  batch_size : ℚ
deriving DecidableEq

/-- WGAN.load (src/wgan.py lines 143-148): asserts the path is a
directory (AssertionError with the source's message otherwise), builds a
bare Generator shell at the configured batch size, reassigns the
generator attribute to the value RETURNED by load_weights, and returns
that attribute.  load_weights is the external Keras restorer; for .h5
weight files it returns None, modelled as none. -/
def WGAN.load (isdir : Bool) (batch_size : ℚ)
    (load_weights : GeneratorShell → Option GeneratorShell) :
    Except String (Option GeneratorShell) :=
  if isdir = true then
    Except.ok (load_weights (GeneratorShell.mk batch_size))
  else
    Except.error "Please provide a valid path. Path must be a directory."

/-- Identity permutation draw, an admissible instantiation of the perm
parameter on concrete inputs (for n ≤ 1 it is the only permutation of
range n, hence exactly the numpy draw). -/
def idPerm (_s n : ℕ) : List ℕ := List.range n

/-- hasShape r b d: r is a matrix of exactly b rows, each of length d —
the claimed output shape (batch_size, data_dim) of the sampler. -/
def hasShape (r : Option (List (List ℚ))) (b d : ℕ) : Bool :=
  match r with
  | some m => m.length == b && m.all (fun row => row.length == d)
  | none => false

/- Helper lemmas (shared across the claim theorems). -/

lemma zipWith_mul_replicate (c : ℚ) (p : List ℚ) :
    List.zipWith (fun a b => a * b) (List.replicate p.length c) p =
      p.map (fun x => c * x) := by
  induction p with
  | nil => rfl
  | cons x xs ih => simp [List.replicate_succ, ih]

lemma sum_map_mul (c : ℚ) (p : List ℚ) :
    (p.map (fun x => c * x)).sum = c * p.sum := by
  induction p with
  | nil => simp
  | cons x xs ih => simp [ih, mul_add]

lemma mean_map_mul (c : ℚ) (p : List ℚ) :
    K.mean (p.map (fun x => c * x)) = c * K.mean p := by
  simp [K.mean, sum_map_mul, mul_div_assoc]

lemma clip_call_bounds (c : ℚ) (hc : 0 ≤ c) (w : List ℚ) (x : ℚ)
    (hx : x ∈ (ClipConstraint.mk c).call w) : -c ≤ x ∧ x ≤ c := by
  simp only [ClipConstraint.call, List.mem_map] at hx
  obtain ⟨a, _, rfl⟩ := hx
  constructor
  · exact le_min (by linarith) (le_max_left _ _)
  · exact min_le_left _ _

/-- C3: the Wasserstein loss is the mean of the elementwise product of
label and prediction; with the all-(-1) label vector it is minus the
mean prediction and with the all-(+1) label vector it is the mean
prediction. -/
theorem wasserstein_loss_spec (y_pred : List ℚ) :
    WGAN.wasserstein_loss (List.replicate y_pred.length (-1)) y_pred =
      -(K.mean y_pred) ∧
    WGAN.wasserstein_loss (List.replicate y_pred.length 1) y_pred =
      K.mean y_pred ∧
    ∀ y_true : List ℚ, y_true.length = y_pred.length →
      WGAN.wasserstein_loss y_true y_pred =
        (List.zipWith (fun a b => a * b) y_true y_pred).sum /
          (y_pred.length : ℚ) := by
  refine ⟨?_, ?_, ?_⟩
  · rw [WGAN.wasserstein_loss, zipWith_mul_replicate, mean_map_mul]; ring
  · rw [WGAN.wasserstein_loss, zipWith_mul_replicate, mean_map_mul]; ring
  · intro y_true h
    rw [WGAN.wasserstein_loss, K.mean, List.length_zipWith, h, min_self]

theorem wasserstein_loss_spec_witness :
    ([(3 : ℚ), 5]).length = ([(2 : ℚ), 4]).length ∧
    WGAN.wasserstein_loss [(3 : ℚ), 5] [2, 4] =
      (List.zipWith (fun a b => a * b) [(3 : ℚ), 5] [2, 4]).sum /
        ((([(2 : ℚ), 4]).length : ℕ) : ℚ) :=
  ⟨rfl, (wasserstein_loss_spec [2, 4]).2.2 [3, 5] rfl⟩

/-- C1 counterexample: the claim fails for the final scalar projection
layer and for the bias vectors.  In the built Critic the last Dense
layer carries no constraint at all, so a parameter update writing 5 into
its kernel (and bias) leaves 5 there, outside [-0.01, 0.01]. -/
theorem critic_clip_counterexample :
    ∃ cs ∈ denseConstraints (Critic.build_model 4 [3] 1),
      ∃ x ∈ ((Dense.applyUpdate cs.1 cs.2 (DenseWeights.mk [5] [5])).kernel ++
             (Dense.applyUpdate cs.1 cs.2 (DenseWeights.mk [5] [5])).bias),
        ¬(-(1/100 : ℚ) ≤ x ∧ x ≤ 1/100) := by
  refine ⟨(none, none), by simp [Critic.build_model, denseConstraints], 5,
    by simp [Dense.applyUpdate, applyConstraint], by norm_num⟩

/-- C1 (amended): after any parameter update every element of the kernel
of a clip-constrained Dense layer lies in [-0.01, 0.01]; in the built
Critic exactly the three hidden Dense layers carry the kernel constraint
ClipConstraint(0.01), while the final Dense(1) kernel and every bias
vector are unconstrained. -/
theorem critic_clip_invariant (batch_size : ℚ) (input_shape : List ℚ)
    (dim : ℚ) (bc : Option ClipConstraint) (proposed : DenseWeights) :
    ((denseConstraints (Critic.build_model batch_size input_shape dim)).map
        Prod.fst =
      [some (ClipConstraint.mk (1/100)), some (ClipConstraint.mk (1/100)),
       some (ClipConstraint.mk (1/100)), none] ∧
     (denseConstraints (Critic.build_model batch_size input_shape dim)).map
        Prod.snd = [none, none, none, none]) ∧
    ∀ x ∈ (Dense.applyUpdate (some (ClipConstraint.mk (1/100))) bc
        proposed).kernel,
      -(1/100 : ℚ) ≤ x ∧ x ≤ 1/100 := by
  refine ⟨⟨rfl, rfl⟩, ?_⟩
  intro x hx
  exact clip_call_bounds (1/100) (by norm_num) proposed.kernel x hx

theorem critic_clip_invariant_witness :
    (1/100 : ℚ) ∈ (Dense.applyUpdate (some (ClipConstraint.mk (1/100))) none
      (DenseWeights.mk [1] [0])).kernel ∧
    (-(1/100 : ℚ) ≤ 1/100 ∧ (1/100 : ℚ) ≤ 1/100) :=
  ⟨by norm_num [Dense.applyUpdate, applyConstraint, ClipConstraint.call,
      min_def, max_def],
   (critic_clip_invariant 4 [3] 1 none (DenseWeights.mk [1] [0])).2
     (1/100)
     (by norm_num [Dense.applyUpdate, applyConstraint, ClipConstraint.call,
        min_def, max_def])⟩

/-- C9 counterexample: noise_dim = 0 is non-positive, yet construction
succeeds and simply forwards the dimensions into the layer stacks — no
configuration error is raised by the repository's code. -/
theorem init_counterexample :
    (0 : ℚ) ≤ 0 ∧
    WGAN.init [4, 1/1000, 0, 3, 8] 5 =
      Except.ok (WGANNets.mk 5 4 (1/1000) 0 3 8
        (Generator.build_model 4 [0] 8 3)
        (Critic.build_model 4 [3] 8)) :=
  ⟨le_refl 0, rfl⟩

/-- C9 (amended): WGAN.__init__ and the two build_model functions
perform no dimension validation: for every 5-element parameter list,
whatever its values, construction succeeds and the dimensions reach the
layer declarations unchecked. -/
theorem init_no_validation (batch_size lr noise_dim data_dim layers_dim : ℚ)
    (n_critic : ℤ) :
    WGAN.init [batch_size, lr, noise_dim, data_dim, layers_dim] n_critic =
      Except.ok (WGANNets.mk n_critic batch_size lr noise_dim data_dim
        layers_dim
        (Generator.build_model batch_size [noise_dim] layers_dim data_dim)
        (Critic.build_model batch_size [data_dim] layers_dim)) := rfl

/-- C6: load raises the directory assertion on a non-directory path, but
on an existing directory it returns whatever load_weights returns — for
an .h5 weight file that is None, not the reconstructed Generator
shell. -/
theorem load_behavior (batch_size : ℚ)
    (load_weights : GeneratorShell → Option GeneratorShell) :
    WGAN.load false batch_size load_weights =
      Except.error "Please provide a valid path. Path must be a directory." ∧
    WGAN.load true batch_size (fun _ => none) = Except.ok none ∧
    (Except.ok none : Except String (Option GeneratorShell)) ≠
      Except.ok (some (GeneratorShell.mk batch_size)) :=
  ⟨rfl, rfl, by simp⟩

lemma mem_listSlice {α : Type} (l : List α) (s b p : ℕ) (hsp : s ≤ p)
    (hpb : p < s + b) (hpl : p < l.length) :
    l[p] ∈ listSlice l s (s + b) := by
  have hds : s + b - s = b := by omega
  simp only [listSlice, hds]
  rw [List.mem_iff_getElem]
  have hlen : p - s < (List.take b (l.drop s)).length := by
    simp only [List.length_take, List.length_drop]
    omega
  refine ⟨p - s, hlen, ?_⟩
  rw [List.getElem_take, List.getElem_drop]
  congr 1
  omega

lemma mem_of_mem_listSlice {α : Type} {a : α} {l : List α} {s t : ℕ}
    (h : a ∈ listSlice l s t) : a ∈ l := by
  simp only [listSlice] at h
  exact (List.drop_sublist s l).subset ((List.take_sublist _ _).subset h)

lemma permOf_length {l : List ℕ} {n : ℕ} (h : IsPermOf l n) :
    l.length = n := by
  have h' : List.Perm l (List.range n) := h
  simpa using h'.length_eq

lemma permOf_mem_iff {l : List ℕ} {n : ℕ} {j : ℕ} (h : IsPermOf l n) :
    j ∈ l ↔ j < n := by
  have h' : List.Perm l (List.range n) := h
  rw [h'.mem_iff]
  exact List.mem_range

lemma chunkInto_flatten (d : ℕ) (rows : List (List ℚ))
    (hd : ∀ r ∈ rows, r.length = d) :
    chunkInto rows.length d rows.flatten = rows := by
  induction rows with
  | nil => rfl
  | cons r rest ih =>
    have hr : r.length = d := hd r (List.mem_cons_self _ _)
    have hres : ∀ x ∈ rest, x.length = d :=
      fun x hx => hd x (List.mem_cons_of_mem _ hx)
    have htake : (r ++ rest.flatten).take d = r := by
      rw [← hr]; exact List.take_left _ _
    have hdrop : (r ++ rest.flatten).drop d = rest.flatten := by
      rw [← hr]; exact List.drop_left _ _
    simp only [List.length_cons, List.flatten_cons, chunkInto, htake, hdrop,
      ih hres]

lemma flatten_length_of_rect (rows : List (List ℚ)) (d : ℕ)
    (hd : ∀ r ∈ rows, r.length = d) :
    rows.flatten.length = rows.length * d := by
  induction rows with
  | nil => simp
  | cons r rest ih =>
    have hr : r.length = d := hd r (List.mem_cons_self _ _)
    have hres : ∀ x ∈ rest, x.length = d :=
      fun x hx => hd x (List.mem_cons_of_mem _ hx)
    simp only [List.flatten_cons, List.length_append, List.length_cons, hr,
      ih hres]
    ring

lemma np_reshape_rows_rect (rows : List (List ℚ)) (b d : ℕ) (hb : 0 < b)
    (hlen : rows.length = b) (hd : ∀ r ∈ rows, r.length = d) :
    np_reshape_rows rows b = some rows := by
  have hf : rows.flatten.length = b * d := by
    rw [flatten_length_of_rect rows d hd, hlen]
  have hmod : rows.flatten.length % b = 0 := by
    rw [hf]; exact Nat.mul_mod_right b d
  have hdiv : rows.flatten.length / b = d := by
    rw [hf]; exact Nat.mul_div_cancel_left d hb
  unfold np_reshape_rows
  rw [if_pos ⟨hb, hmod⟩, hdiv, ← hlen]
  rw [chunkInto_flatten d rows hd]

lemma batch_indices_eq (perm : ℕ → ℕ → List ℕ) (n batch_size seed : ℕ) :
    WGAN.batch_indices perm n batch_size seed =
      listSlice (perm ((batch_size * seed) / n) n ++
          perm ((batch_size * seed) / n) n)
        ((batch_size * seed) % n) ((batch_size * seed) % n + batch_size) :=
  rfl

lemma batch_indices_length (perm : ℕ → ℕ → List ℕ) (n batch_size seed : ℕ)
    (hp : IsPermOf (perm ((batch_size * seed) / n) n) n)
    (hfit : (batch_size * seed) % n + batch_size ≤ 2 * n) :
    (WGAN.batch_indices perm n batch_size seed).length = batch_size := by
  rw [batch_indices_eq]
  simp only [listSlice, List.length_take, List.length_drop,
    List.length_append, permOf_length hp]
  rw [min_eq_left (by omega)]
  omega

lemma batch_indices_mem (perm : ℕ → ℕ → List ℕ) (n batch_size seed : ℕ)
    (hp : IsPermOf (perm ((batch_size * seed) / n) n) n) :
    ∀ i ∈ WGAN.batch_indices perm n batch_size seed, i < n := by
  intro i hi
  rw [batch_indices_eq] at hi
  have hm := mem_of_mem_listSlice hi
  rw [List.mem_append] at hm
  rcases hm with h | h <;> exact (permOf_mem_iff hp).mp h

lemma get_data_batch_some (perm : ℕ → ℕ → List ℕ) (train : List (List ℚ))
    (batch_size seed d : ℕ)
    (hp : IsPermOf (perm ((batch_size * seed) / train.length) train.length)
      train.length)
    (hn : 0 < train.length) (hb : 0 < batch_size)
    (hd : ∀ r ∈ train, r.length = d)
    (hfit : (batch_size * seed) % train.length + batch_size ≤
      2 * train.length) :
    WGAN.get_data_batch perm train batch_size seed =
      some ((WGAN.batch_indices perm train.length batch_size seed).map
        (fun i => train.getD i [])) := by
  have hrows : ∀ r ∈ (WGAN.batch_indices perm train.length batch_size
      seed).map (fun i => train.getD i []), r.length = d := by
    intro r hr
    rw [List.mem_map] at hr
    obtain ⟨i, hi, rfl⟩ := hr
    have hin : i < train.length := batch_indices_mem _ _ _ _ hp i hi
    rw [List.getD_eq_getElem train [] hin]
    exact hd _ (List.getElem_mem hin)
  have hlen : ((WGAN.batch_indices perm train.length batch_size seed).map
      (fun i => train.getD i [])).length = batch_size := by
    rw [List.length_map]
    exact batch_indices_length _ _ _ _ hp hfit
  unfold WGAN.get_data_batch
  rw [if_neg (by omega)]
  exact np_reshape_rows_rect _ batch_size d hb hlen hrows

/-- C2 counterexample: a dataset of one row of width 3 with batch_size 3
and step_seed 0 — a non-empty dataset and a positive batch size — yields
a (3, 2) matrix, not (3, 3): the duplicated index list supplies only 2
indices for the slice [0:3], and reshape redistributes the 6 elements
into 3 rows of 2.  For n = 1 the identity permutation is the only
permutation of the index set, so this is the numpy behaviour. -/
theorem get_data_batch_shape_counterexample :
    0 < ([[(1 : ℚ), 2, 3]] : List (List ℚ)).length ∧ 0 < 3 ∧
    IsPermOf (idPerm 0 1) 1 ∧
    WGAN.get_data_batch idPerm [[(1 : ℚ), 2, 3]] 3 0 =
      some [[1, 2], [3, 1], [2, 3]] ∧
    hasShape (WGAN.get_data_batch idPerm [[(1 : ℚ), 2, 3]] 3 0) 3 3 =
      false := by
  refine ⟨by decide, by decide, List.Perm.refl _, rfl, rfl⟩

/-- C2 (amended): the Batch Sampler returns a matrix of shape exactly
(batch_size, data_dim) whenever the duplicated index list supplies at
least batch_size indices for the slice, i.e. whenever
(batch_size * seed) mod n + batch_size ≤ 2 * n — in particular always
when batch_size ≤ n + 1, but not for every batch_size > n. -/
theorem get_data_batch_shape (perm : ℕ → ℕ → List ℕ)
    (train : List (List ℚ)) (batch_size seed d : ℕ)
    (hp : IsPermOf (perm ((batch_size * seed) / train.length) train.length)
      train.length)
    (hn : 0 < train.length) (hb : 0 < batch_size)
    (hd : ∀ r ∈ train, r.length = d)
    (hfit : (batch_size * seed) % train.length + batch_size ≤
      2 * train.length) :
    hasShape (WGAN.get_data_batch perm train batch_size seed) batch_size d =
      true := by
  rw [get_data_batch_some perm train batch_size seed d hp hn hb hd hfit]
  simp only [hasShape, Bool.and_eq_true, beq_iff_eq, List.all_eq_true]
  constructor
  · rw [List.length_map]
    exact batch_indices_length _ _ _ _ hp hfit
  · intro row hrow
    rw [List.mem_map] at hrow
    obtain ⟨i, hi, rfl⟩ := hrow
    have hin : i < train.length := batch_indices_mem _ _ _ _ hp i hi
    rw [List.getD_eq_getElem train [] hin]
    exact hd _ (List.getElem_mem hin)

theorem get_data_batch_shape_witness :
    IsPermOf (idPerm 0 2) 2 ∧
    0 < ([[(1 : ℚ)], [2]] : List (List ℚ)).length ∧ 0 < 3 ∧
    (∀ r ∈ ([[(1 : ℚ)], [2]] : List (List ℚ)), r.length = 1) ∧
    (3 * 0) % 2 + 3 ≤ 2 * 2 ∧
    hasShape (WGAN.get_data_batch idPerm [[(1 : ℚ)], [2]] 3 0) 3 1 = true :=
  ⟨List.Perm.refl _, by decide, by decide, by decide, by decide,
   get_data_batch_shape idPerm [[1], [2]] 3 0 1 (List.Perm.refl _)
     (by decide) (by decide) (by decide) (by decide)⟩

/-- C5: with 0 < batch_size ≤ n, all step seeds 0 .. ceil(n/batch_size)-1
share shuffle_epoch = 0, and the union of their selected index windows
covers every dataset row index at least once. -/
theorem get_data_batch_coverage (perm : ℕ → ℕ → List ℕ) (n batch_size : ℕ)
    (hb : 0 < batch_size) (hbn : batch_size ≤ n)
    (hp : IsPermOf (perm 0 n) n) :
    (∀ k < (n + batch_size - 1) / batch_size, (batch_size * k) / n = 0) ∧
    ∀ j < n, ∃ k < (n + batch_size - 1) / batch_size,
      j ∈ WGAN.batch_indices perm n batch_size k := by
  have hn : 0 < n := lt_of_lt_of_le hb hbn
  have hceil1 : n ≤ batch_size * ((n + batch_size - 1) / batch_size) := by
    have h1 := Nat.div_add_mod (n + batch_size - 1) batch_size
    have h2 : (n + batch_size - 1) % batch_size < batch_size :=
      Nat.mod_lt _ hb
    omega
  have hceil2 : batch_size * ((n + batch_size - 1) / batch_size) ≤
      n + batch_size - 1 := by
    have h1 := Nat.div_add_mod (n + batch_size - 1) batch_size
    omega
  have hsmall : ∀ k < (n + batch_size - 1) / batch_size,
      batch_size * k < n := by
    intro k hk
    have h3 : batch_size * (k + 1) ≤
        batch_size * ((n + batch_size - 1) / batch_size) :=
      Nat.mul_le_mul_left _ hk
    rw [Nat.mul_succ] at h3
    omega
  constructor
  · intro k hk
    exact Nat.div_eq_of_lt (hsmall k hk)
  · intro j hj
    have hjl : j ∈ perm 0 n := (permOf_mem_iff hp).mpr hj
    rw [List.mem_iff_getElem] at hjl
    obtain ⟨p, hplen, hpj⟩ := hjl
    have hpn : p < n := by rwa [permOf_length hp] at hplen
    have hkc : p / batch_size < (n + batch_size - 1) / batch_size := by
      rw [Nat.div_lt_iff_lt_mul hb]
      calc p < n := hpn
        _ ≤ batch_size * ((n + batch_size - 1) / batch_size) := hceil1
        _ = ((n + batch_size - 1) / batch_size) * batch_size :=
          Nat.mul_comm _ _
    refine ⟨p / batch_size, hkc, ?_⟩
    have hstart_le : batch_size * (p / batch_size) ≤ p := by
      have h1 := Nat.div_add_mod p batch_size
      omega
    have hlt_n : batch_size * (p / batch_size) < n :=
      lt_of_le_of_lt hstart_le hpn
    have hmod : (batch_size * (p / batch_size)) % n =
        batch_size * (p / batch_size) := Nat.mod_eq_of_lt hlt_n
    have hdiv : (batch_size * (p / batch_size)) / n = 0 :=
      Nat.div_eq_of_lt hlt_n
    have hplt : p < batch_size * (p / batch_size) + batch_size := by
      have h1 := Nat.div_add_mod p batch_size
      have h2 : p % batch_size < batch_size := Nat.mod_lt _ hb
      omega
    rw [batch_indices_eq, hdiv, hmod]
    have hlen2 : p < (perm 0 n ++ perm 0 n).length := by
      rw [List.length_append, permOf_length hp]
      omega
    have hgoal := mem_listSlice (perm 0 n ++ perm 0 n)
      (batch_size * (p / batch_size)) batch_size p hstart_le hplt hlen2
    have hpl' : p < (perm 0 n).length := hplen
    have heq : (perm 0 n ++ perm 0 n)[p] = j := by
      rw [List.getElem_append_left hpl']
      exact hpj
    rwa [heq] at hgoal

theorem get_data_batch_coverage_witness :
    0 < 2 ∧ 2 ≤ 3 ∧ IsPermOf (idPerm 0 3) 3 ∧
    ((∀ k < (3 + 2 - 1) / 2, (2 * k) / 3 = 0) ∧
     ∀ j < 3, ∃ k < (3 + 2 - 1) / 2, j ∈ WGAN.batch_indices idPerm 3 2 k) :=
  ⟨by decide, by decide, List.Perm.refl _,
   get_data_batch_coverage idPerm 3 2 (by decide) (by decide)
     (List.Perm.refl _)⟩

/-- C7: the Batch Sampler's output is a deterministic function of
(dataset, batch_size, step_seed): because the call re-seeds the
pseudo-random generator with shuffle_seed before drawing the
permutation, two calls from arbitrary, possibly different, incoming
random states return the same matrix. -/
theorem get_data_batch_deterministic {σ : Type} (rng : NpRandom σ)
    (st1 st2 : σ) (train : List (List ℚ)) (batch_size seed : ℕ) :
    (WGAN.get_data_batch_rng rng st1 train batch_size seed).1 =
    (WGAN.get_data_batch_rng rng st2 train batch_size seed).1 := by
  simp only [WGAN.get_data_batch_rng]
  split <;> rfl

lemma criticPhase_no_save (n_critic : ℤ) :
    (criticPhaseEvents n_critic).filterMap TrainEvent.saveName? = [] := by
  rw [List.filterMap_eq_nil_iff]
  intro ev hev
  simp only [criticPhaseEvents, List.mem_flatMap] at hev
  obtain ⟨a, -, h⟩ := hev
  simp only [List.mem_cons, List.not_mem_nil, or_false] at h
  rcases h with rfl | rfl | rfl | rfl <;> rfl

lemma criticPhase_sample_seed (n_critic : ℤ) (s : ℕ)
    (h : TrainEvent.sampleBatch s ∈ criticPhaseEvents n_critic) : s = 0 := by
  simp only [criticPhaseEvents, List.mem_flatMap] at h
  obtain ⟨a, -, h⟩ := h
  simp only [List.mem_cons, List.not_mem_nil, or_false] at h
  rcases h with h | h | h | h <;> simp_all

lemma criticPhase_no_mkdir (n_critic : ℤ) :
    TrainEvent.mkdirCache ∉ criticPhaseEvents n_critic := by
  intro h
  simp only [criticPhaseEvents, List.mem_flatMap] at h
  obtain ⟨a, -, h⟩ := h
  simp at h

lemma train_go_ok (n_critic : ℤ) (cache_pfx : String) (sample_interval : ℕ)
    (hn : 1 ≤ n_critic) (hi : sample_interval ≠ 0) :
    ∀ (fuel epoch : ℕ) (cacheExists dLossDefined : Bool),
      WGAN.train_go n_critic cache_pfx sample_interval epoch fuel cacheExists
        dLossDefined =
      Except.ok (WGAN.train_events n_critic cache_pfx sample_interval epoch
        fuel cacheExists) := by
  intro fuel
  induction fuel with
  | zero => intro epoch ex dld; rfl
  | succ f ih =>
    intro epoch ex dld
    simp [WGAN.train_go, WGAN.train_events, decide_eq_true hn, hi, ih]

lemma train_events_sample_zero (n_critic : ℤ) (cache_pfx : String)
    (sample_interval : ℕ) :
    ∀ (fuel epoch : ℕ) (cacheExists : Bool) (s : ℕ),
      TrainEvent.sampleBatch s ∈ WGAN.train_events n_critic cache_pfx
        sample_interval epoch fuel cacheExists → s = 0 := by
  intro fuel
  induction fuel with
  | zero => intro epoch ex s hs; simp [WGAN.train_events] at hs
  | succ f ih =>
    intro epoch ex s hs
    simp only [WGAN.train_events, List.mem_append] at hs
    rcases hs with ((hs | hs) | hs) | hs
    · exact criticPhase_sample_seed _ _ hs
    · simp at hs
    · split at hs
      · split at hs <;> simp at hs
      · simp at hs
    · exact ih _ _ _ hs

lemma train_events_saves (n_critic : ℤ) (cache_pfx : String)
    (sample_interval : ℕ) :
    ∀ (fuel epoch : ℕ) (cacheExists : Bool),
      (WGAN.train_events n_critic cache_pfx sample_interval epoch fuel
        cacheExists).filterMap TrainEvent.saveName? =
      ((List.range' epoch fuel).filter
        (fun e => e % sample_interval = 0)).flatMap
        (fun e => [checkpoint_name cache_pfx "generator" e,
                   checkpoint_name cache_pfx "critic" e]) := by
  intro fuel
  induction fuel with
  | zero => intro epoch ex; rfl
  | succ f ih =>
    intro epoch ex
    rw [List.range'_succ]
    by_cases hmod : epoch % sample_interval = 0
    · cases ex <;>
        simp [WGAN.train_events, List.filterMap_append, criticPhase_no_save,
          hmod, ih, TrainEvent.saveName?]
    · cases ex <;>
        simp [WGAN.train_events, List.filterMap_append, criticPhase_no_save,
          hmod, ih, TrainEvent.saveName?]

lemma train_events_mkdir (n_critic : ℤ) (cache_pfx : String)
    (sample_interval : ℕ) :
    ∀ (fuel epoch : ℕ) (cacheExists : Bool),
      (TrainEvent.mkdirCache ∈ WGAN.train_events n_critic cache_pfx
        sample_interval epoch fuel cacheExists ↔
      (cacheExists = false ∧ ∃ e ∈ List.range' epoch fuel,
        e % sample_interval = 0)) := by
  intro fuel
  induction fuel with
  | zero => intro epoch ex; simp [WGAN.train_events]
  | succ f ih =>
    intro epoch ex
    rw [List.range'_succ]
    by_cases hmod : epoch % sample_interval = 0 <;> cases ex <;>
      simp [WGAN.train_events, List.mem_append, criticPhase_no_mkdir, hmod,
        ih]

/-- C8: with a positive sample_interval and at least one critic
iteration per epoch, train writes exactly one generator/critic
checkpoint pair for every epoch with epoch mod sample_interval = 0 and
for no other epoch, with the exact filenames built at line 135, and
emits the mkdir of ./cache exactly when the directory is missing and
some qualifying epoch occurs. -/
theorem train_checkpoint_files (n_critic : ℤ) (cache_pfx : String)
    (epochs sample_interval : ℕ) (cacheExists0 : Bool)
    (hn : 1 ≤ n_critic) (hi : 0 < sample_interval) :
    WGAN.train n_critic cache_pfx epochs sample_interval cacheExists0 =
      Except.ok (WGAN.train_events n_critic cache_pfx sample_interval 0
        epochs cacheExists0) ∧
    (WGAN.train_events n_critic cache_pfx sample_interval 0 epochs
        cacheExists0).filterMap TrainEvent.saveName? =
      ((List.range epochs).filter
        (fun e => e % sample_interval = 0)).flatMap
        (fun e => [checkpoint_name cache_pfx "generator" e,
                   checkpoint_name cache_pfx "critic" e]) ∧
    (TrainEvent.mkdirCache ∈ WGAN.train_events n_critic cache_pfx
        sample_interval 0 epochs cacheExists0 ↔
      (cacheExists0 = false ∧ ∃ e ∈ List.range epochs,
        e % sample_interval = 0)) := by
  refine ⟨train_go_ok _ _ _ hn (by omega) epochs 0 cacheExists0 false,
    ?_, ?_⟩
  · rw [List.range_eq_range']
    exact train_events_saves _ _ _ epochs 0 cacheExists0
  · rw [List.range_eq_range']
    exact train_events_mkdir _ _ _ epochs 0 cacheExists0

theorem train_checkpoint_files_witness :
    (1 : ℤ) ≤ 1 ∧ 0 < 2 ∧
    (WGAN.train 1 "w" 3 2 false =
      Except.ok (WGAN.train_events 1 "w" 2 0 3 false) ∧
    (WGAN.train_events 1 "w" 2 0 3 false).filterMap TrainEvent.saveName? =
      ((List.range 3).filter (fun e => e % 2 = 0)).flatMap
        (fun e => [checkpoint_name "w" "generator" e,
                   checkpoint_name "w" "critic" e]) ∧
    (TrainEvent.mkdirCache ∈ WGAN.train_events 1 "w" 2 0 3 false ↔
      (false = false ∧ ∃ e ∈ List.range 3, e % 2 = 0))) :=
  ⟨by decide, by decide,
   train_checkpoint_files 1 "w" 3 2 false (by decide) (by decide)⟩

/-- C10 counterexample: the claim's clause "train terminates normally
only when n_critic >= 1" fails when epochs = 0: the epoch loop body
never runs, so train with n_critic = 0 returns normally. -/
theorem train_n_critic_counterexample :
    (0 : ℤ) < 1 ∧ WGAN.train 0 "wgan" 0 1 false = Except.ok [] :=
  ⟨by decide, rfl⟩

/-- C10 (amended): when at least one epoch runs, n_critic < 1 makes the
inner critic loop body never execute, so the first epoch's progress
report reads d_loss before any assignment and train aborts with the
unbound-local error on d_loss; with epochs = 0 the epoch loop body never
executes and train returns normally for every n_critic. -/
theorem train_unbound_d_loss (n_critic : ℤ) (cache_pfx : String)
    (epochs sample_interval : ℕ) (cacheExists0 : Bool)
    (hnc : n_critic < 1) (he : 1 ≤ epochs) :
    WGAN.train n_critic cache_pfx epochs sample_interval cacheExists0 =
      Except.error (TrainError.unboundLocal "d_loss") ∧
    ∀ nc2 : ℤ, WGAN.train nc2 cache_pfx 0 sample_interval cacheExists0 =
      Except.ok [] := by
  constructor
  · obtain ⟨f, rfl⟩ : ∃ f, epochs = f + 1 := ⟨epochs - 1, by omega⟩
    have hdec : decide (1 ≤ n_critic) = false :=
      decide_eq_false (by omega)
    simp [WGAN.train, WGAN.train_go, hdec]
  · intro nc2
    rfl

theorem train_unbound_d_loss_witness :
    (0 : ℤ) < 1 ∧ 1 ≤ 1 ∧
    (WGAN.train 0 "wgan" 1 5 true =
      Except.error (TrainError.unboundLocal "d_loss") ∧
    ∀ nc2 : ℤ, WGAN.train nc2 "wgan" 0 5 true = Except.ok []) :=
  ⟨by decide, by decide,
   train_unbound_d_loss 0 "wgan" 1 5 true (by decide) (by decide)⟩

/-- C4: every Batch Sampler call the training loop makes (one per critic
iteration per epoch) records the default step counter 0 — the seed
argument is never advanced — so every critic iteration trains on the
identical real batch: with batch_size ≤ n the window is exactly the
first batch_size entries of the seed-0 permutation, and the batch is the
corresponding rows. -/
theorem train_sampler_constant_seed (n_critic : ℤ) (cache_pfx : String)
    (epochs sample_interval : ℕ) (cacheExists0 : Bool)
    (perm : ℕ → ℕ → List ℕ) (train : List (List ℚ)) (batch_size d : ℕ)
    (hn1 : 1 ≤ n_critic) (hi : 0 < sample_interval)
    (hp : IsPermOf (perm 0 train.length) train.length)
    (hn : 0 < train.length) (hb : 0 < batch_size)
    (hbn : batch_size ≤ train.length)
    (hd : ∀ r ∈ train, r.length = d) :
    WGAN.train n_critic cache_pfx epochs sample_interval cacheExists0 =
      Except.ok (WGAN.train_events n_critic cache_pfx sample_interval 0
        epochs cacheExists0) ∧
    (∀ s, TrainEvent.sampleBatch s ∈ WGAN.train_events n_critic cache_pfx
        sample_interval 0 epochs cacheExists0 → s = 0) ∧
    WGAN.batch_indices perm train.length batch_size 0 =
      (perm 0 train.length).take batch_size ∧
    WGAN.get_data_batch perm train batch_size 0 =
      some (((perm 0 train.length).take batch_size).map
        (fun i => train.getD i [])) := by
  have hbi : WGAN.batch_indices perm train.length batch_size 0 =
      (perm 0 train.length).take batch_size := by
    rw [batch_indices_eq]
    simp only [Nat.mul_zero, Nat.zero_div, Nat.zero_mod, listSlice,
      List.drop_zero, Nat.zero_add, Nat.sub_zero]
    rw [List.take_append_of_le_length]
    rw [permOf_length hp]
    exact hbn
  have hp0 : IsPermOf (perm ((batch_size * 0) / train.length) train.length)
      train.length := by
    simpa using hp
  have hfit0 : (batch_size * 0) % train.length + batch_size ≤
      2 * train.length := by
    simp only [Nat.mul_zero, Nat.zero_mod]
    omega
  refine ⟨train_go_ok _ _ _ hn1 (by omega) epochs 0 cacheExists0 false,
    fun s hs => train_events_sample_zero _ _ _ epochs 0 cacheExists0 s hs,
    hbi, ?_⟩
  have hsome := get_data_batch_some perm train batch_size 0 d hp0 hn hb hd
    hfit0
  rw [hbi] at hsome
  exact hsome

theorem train_sampler_constant_seed_witness :
    (1 : ℤ) ≤ 1 ∧ 0 < 1 ∧ IsPermOf (idPerm 0 2) 2 ∧
    0 < ([[(1 : ℚ)], [2]] : List (List ℚ)).length ∧ 0 < 1 ∧ 1 ≤ 2 ∧
    (∀ r ∈ ([[(1 : ℚ)], [2]] : List (List ℚ)), r.length = 1) ∧
    (WGAN.train 1 "w" 1 1 false =
      Except.ok (WGAN.train_events 1 "w" 1 0 1 false) ∧
    (∀ s, TrainEvent.sampleBatch s ∈ WGAN.train_events 1 "w" 1 0 1 false →
      s = 0) ∧
    WGAN.batch_indices idPerm 2 1 0 = (idPerm 0 2).take 1 ∧
    WGAN.get_data_batch idPerm [[(1 : ℚ)], [2]] 1 0 =
      some (((idPerm 0 2).take 1).map
        (fun i => ([[(1 : ℚ)], [2]] : List (List ℚ)).getD i []))) :=
  ⟨by decide, by decide, List.Perm.refl _, by decide, by decide, by decide,
   by decide,
   train_sampler_constant_seed 1 "w" 1 1 false idPerm [[1], [2]] 1 1
     (by decide) (by decide) (List.Perm.refl _) (by decide) (by decide)
     (by decide) (by decide)⟩

theorem init_no_validation_witness :
    WGAN.init [4, 1/1000, 0, 3, 8] (-2) =
      Except.ok (WGANNets.mk (-2) 4 (1/1000) 0 3 8
        (Generator.build_model 4 [0] 8 3)
        (Critic.build_model 4 [3] 8)) :=
  init_no_validation 4 (1/1000) 0 3 8 (-2)

theorem load_behavior_witness :
    WGAN.load true 4 (fun _ => none) = Except.ok none :=
  (load_behavior 4 (fun _ => none)).2.1
